import Mathlib

/-!
Shallow embedding of the eco-habit-tracker data-access layer.

Sources embedded:
- `db/tables.ts` : the two table schemas `EcoHabits` and `EcoHabitLogs`.
- `src/actions/index.ts` : `requireUser`, `getHabitForUser`, and the six
  actions `createHabit`, `updateHabit`, `archiveHabit`, `listMyHabits`,
  `upsertHabitLog`, `listHabitLogs`.

Modelling conventions:
- Dates (`Date` values and `NOW`) are modelled as `Nat` instants; each action
  takes a single `now` parameter standing for the `new Date()` calls made
  during that invocation.
- JS numbers are modelled as `Int`; the code never computes with them, it
  only stores them and validates sign constraints (`positive`, `nonnegative`).
- `crypto.randomUUID()` is modelled as an explicit `newId` parameter supplied
  by the environment; the real generator never returns the empty string and
  never repeats an id.
- The call context (`context.locals.user`) is modelled as `Option String`
  carrying the caller's `user.id`, the only field the code reads.
- The store (`db` from `astro:db`, a drizzle/libSQL instance) is modelled as
  lists of rows.  `select().where` filters; destructuring `[x] = rows` takes
  `head?`; `update().set().where` maps the update over every matching row;
  `insert().values` appends.
- drizzle's `buildUpdateSet` omits from the SQL SET clause every entry whose
  value is `undefined`, so `set({quantity: input.quantity})` with an omitted
  `quantity` leaves the stored column untouched; the helper `setCol` models
  a SET entry on an optional column.
- An Astro action validates its zod input schema before invoking the handler
  and throws an input error (code BAD_REQUEST) on failure, so each action is
  modelled as a validation test followed by the handler body.  Throwing an
  `ActionError` aborts the invocation, so an `Except.error` result carries
  no payload and no successor store: the caller's store is unchanged.
-/

/-- A row of the `EcoHabits` table (`db/tables.ts`). -/
structure Habit where
  id : String
  userId : String
  name : String
  description : Option String
  category : Option String
  frequency : Option String
  targetPerPeriod : Option Int
  impactPerUnit : Option Int
  impactUnit : Option String
  isActive : Bool
  createdAt : Nat
  updatedAt : Nat
deriving Repr, DecidableEq

/-- A row of the `EcoHabitLogs` table (`db/tables.ts`). -/
structure HabitLog where
  id : String
  habitId : String
  userId : String
  logDate : Nat
  quantity : Option Int
  notes : Option String
  createdAt : Nat
deriving Repr, DecidableEq

/-- The persisted store: the rows of the two tables. -/
structure DB where
  habits : List Habit
  logs : List HabitLog
deriving Repr, DecidableEq

/-- The error kinds an action can raise: `UNAUTHORIZED` and `NOT_FOUND` from
`ActionError` throws in the handlers, and `badRequest` for the input-schema
validation error (Astro's `ActionInputError`, code BAD_REQUEST). -/
inductive ActionError where
  | unauthorized
  | notFound
  | badRequest
deriving Repr, DecidableEq

/-- `requireUser(context)` : returns the caller identity from
`context.locals.user`, throwing UNAUTHORIZED when it is absent. -/
def requireUser (ctx : Option String) : Except ActionError String :=
  match ctx with
  | none => Except.error ActionError.unauthorized
  | some uid => Except.ok uid

/-- `getHabitForUser(habitId, userId)` : first habit row matching both the
id and the owner, `null` (here `none`) otherwise. -/
def getHabitForUser (db : DB) (habitId userId : String) : Option Habit :=
  (db.habits.filter (fun h => h.id == habitId && h.userId == userId)).head?

/-- JS truthiness of an optional string (`if (x)` in the handlers):
`undefined` and the empty string are falsy. -/
def jsTruthy (s : Option String) : Bool :=
  match s with
  | none => false
  | some v => !(v == "")

/-- One SET entry on an optional column under drizzle update semantics:
an `undefined` value is dropped from the SET clause, leaving the old value. -/
def setCol {α : Type} (newVal old : Option α) : Option α :=
  match newVal with
  | some v => some v
  | none => old

/-- The `habitFieldsSchema` payload (`createHabit` input). -/
structure HabitFieldsInput where
  name : String
  description : Option String
  category : Option String
  frequency : Option String
  targetPerPeriod : Option Int
  impactPerUnit : Option Int
  impactUnit : Option String
deriving Repr, DecidableEq

/-- `habitFieldsSchema` validation: `name` has `min(1)` and
`targetPerPeriod` must be positive when present. -/
def validHabitFields (i : HabitFieldsInput) : Bool :=
  !i.name.isEmpty &&
    (match i.targetPerPeriod with
     | none => true
     | some n => decide (0 < n))

/-- `createHabit` : validate, authenticate, insert a fresh habit row with
`isActive=true` and `createdAt=updatedAt=now`, return its id. -/
def createHabit (ctx : Option String) (i : HabitFieldsInput) (newId : String)
    (now : Nat) (db : DB) : Except ActionError (String × DB) :=
  if validHabitFields i then
    match requireUser ctx with
    | Except.error e => Except.error e
    | Except.ok uid =>
        let h : Habit :=
          { id := newId, userId := uid, name := i.name,
            description := i.description, category := i.category,
            frequency := i.frequency, targetPerPeriod := i.targetPerPeriod,
            impactPerUnit := i.impactPerUnit, impactUnit := i.impactUnit,
            isActive := true, createdAt := now, updatedAt := now }
        Except.ok (newId, { db with habits := db.habits ++ [h] })
  else Except.error ActionError.badRequest

/-- The `updateHabit` input: `habitFieldsSchema.partial().extend({id})`. -/
structure UpdateHabitInput where
  id : String
  name : Option String
  description : Option String
  category : Option String
  frequency : Option String
  targetPerPeriod : Option Int
  impactPerUnit : Option Int
  impactUnit : Option String
deriving Repr, DecidableEq

/-- `updateHabit` input validation: `partial()` keeps the inner constraints
on fields that are present, and the `.refine` demands at least one of the
seven updatable fields be provided. -/
def validUpdateHabit (i : UpdateHabitInput) : Bool :=
  (match i.name with
   | none => true
   | some s => !s.isEmpty) &&
  (match i.targetPerPeriod with
   | none => true
   | some n => decide (0 < n)) &&
  (i.name.isSome || i.description.isSome || i.category.isSome ||
   i.frequency.isSome || i.targetPerPeriod.isSome || i.impactPerUnit.isSome ||
   i.impactUnit.isSome)

/-- The `updates` record of `updateHabit` applied to one matching row:
`updatedAt` is always refreshed and each field is assigned only when the
input provides it. -/
def applyHabitUpdate (i : UpdateHabitInput) (now : Nat) (h : Habit) : Habit :=
  { h with
    updatedAt := now,
    name := i.name.getD h.name,
    description := setCol i.description h.description,
    category := setCol i.category h.category,
    frequency := setCol i.frequency h.frequency,
    targetPerPeriod := setCol i.targetPerPeriod h.targetPerPeriod,
    impactPerUnit := setCol i.impactPerUnit h.impactPerUnit,
    impactUnit := setCol i.impactUnit h.impactUnit }

/-- `updateHabit` : validate, authenticate, fetch the owned habit (NOT_FOUND
when absent), then update every row matching the id and owner. -/
def updateHabit (ctx : Option String) (i : UpdateHabitInput) (now : Nat)
    (db : DB) : Except ActionError (String × DB) :=
  if validUpdateHabit i then
    match requireUser ctx with
    | Except.error e => Except.error e
    | Except.ok uid =>
        match getHabitForUser db i.id uid with
        | none => Except.error ActionError.notFound
        | some _ =>
            let habits := db.habits.map (fun h =>
              if h.id == i.id && h.userId == uid then applyHabitUpdate i now h
              else h)
            Except.ok (i.id, { db with habits := habits })
  else Except.error ActionError.badRequest

/-- `archiveHabit` : authenticate, fetch the owned habit (NOT_FOUND when
absent), then set `isActive=false` and refresh `updatedAt` on every row
matching the id and owner.  Its input schema (`{id: z.string()}`) imposes
no constraint on the typed payload. -/
def archiveHabit (ctx : Option String) (id : String) (now : Nat) (db : DB) :
    Except ActionError (String × DB) :=
  match requireUser ctx with
  | Except.error e => Except.error e
  | Except.ok uid =>
      match getHabitForUser db id uid with
      | none => Except.error ActionError.notFound
      | some _ =>
          let habits := db.habits.map (fun h =>
            if h.id == id && h.userId == uid then
              { h with isActive := false, updatedAt := now }
            else h)
          Except.ok (id, { db with habits := habits })

/-- `listMyHabits` : authenticate, then return the caller's habits, filtered
to `isActive=true` unless `includeInactive` (defaulting to false) is set.
The returned envelope's `total` is the length of `items` and is not
modelled separately. -/
def listMyHabits (ctx : Option String) (includeInactive : Option Bool)
    (db : DB) : Except ActionError (List Habit × DB) :=
  match requireUser ctx with
  | Except.error e => Except.error e
  | Except.ok uid =>
      let inc := includeInactive.getD false
      let items :=
        if inc then db.habits.filter (fun h => h.userId == uid)
        else db.habits.filter (fun h => h.userId == uid && h.isActive)
      Except.ok (items, db)

/-- The `mode` discriminant in `upsertHabitLog`'s result. -/
inductive LogMode where
  | created
  | updated
deriving Repr, DecidableEq

/-- The `upsertHabitLog` input payload. -/
structure UpsertHabitLogInput where
  id : Option String
  habitId : String
  logDate : Option Nat
  quantity : Option Int
  notes : Option String
deriving Repr, DecidableEq

/-- `upsertHabitLog` input validation: `quantity` must be nonnegative when
present; the other fields carry no constraint on the typed payload. -/
def validUpsertHabitLog (i : UpsertHabitLogInput) : Bool :=
  match i.quantity with
  | none => true
  | some q => decide (0 ≤ q)

/-- The log lookup on `upsertHabitLog`'s update path: first log row matching
the id and the owner. -/
def findLogForUser (db : DB) (logId userId : String) : Option HabitLog :=
  (db.logs.filter (fun l => l.id == logId && l.userId == userId)).head?

/-- The SET clause of `upsertHabitLog`'s update path applied to one matching
row: `habitId` and `logDate` (input value, falling back to the fetched
existing row's value) are always set; `quantity` and `notes` are set only
when the input provides them, because drizzle drops `undefined` entries
from the SET clause. -/
def applyLogUpdate (i : UpsertHabitLogInput) (existing l : HabitLog) :
    HabitLog :=
  { l with
    habitId := i.habitId,
    logDate := i.logDate.getD existing.logDate,
    quantity := setCol i.quantity l.quantity,
    notes := setCol i.notes l.notes }

/-- `upsertHabitLog` : validate, authenticate, fetch the owned habit named by
`habitId` (NOT_FOUND when absent), then branch on the truthiness of the
optional `id`: when truthy, fetch the owned log (NOT_FOUND when absent) and
update every row matching the id and owner; when falsy, insert a fresh log
row owned by the caller. -/
def upsertHabitLog (ctx : Option String) (i : UpsertHabitLogInput)
    (newId : String) (now : Nat) (db : DB) :
    Except ActionError ((String × LogMode) × DB) :=
  if validUpsertHabitLog i then
    match requireUser ctx with
    | Except.error e => Except.error e
    | Except.ok uid =>
        match getHabitForUser db i.habitId uid with
        | none => Except.error ActionError.notFound
        | some _ =>
            if jsTruthy i.id then
              let sid := i.id.getD ""
              match findLogForUser db sid uid with
              | none => Except.error ActionError.notFound
              | some existing =>
                  let logs := db.logs.map (fun l =>
                    if l.id == sid && l.userId == uid then
                      applyLogUpdate i existing l
                    else l)
                  Except.ok ((sid, LogMode.updated), { db with logs := logs })
            else
              let newLog : HabitLog :=
                { id := newId, habitId := i.habitId, userId := uid,
                  logDate := i.logDate.getD now, quantity := i.quantity,
                  notes := i.notes, createdAt := now }
              Except.ok ((newId, LogMode.created),
                { db with logs := db.logs ++ [newLog] })
  else Except.error ActionError.badRequest

/-- `listHabitLogs` : authenticate, then when the optional `habitId` is
truthy require it to name an owned habit (NOT_FOUND otherwise) and return
the caller's logs for it; when falsy return all the caller's logs.  The
input schema (`{habitId: z.string().optional()}.default({})`) imposes no
constraint on the typed payload. -/
def listHabitLogs (ctx : Option String) (habitId : Option String) (db : DB) :
    Except ActionError (List HabitLog × DB) :=
  match requireUser ctx with
  | Except.error e => Except.error e
  | Except.ok uid =>
      if jsTruthy habitId then
        let hid := habitId.getD ""
        match getHabitForUser db hid uid with
        | none => Except.error ActionError.notFound
        | some _ =>
            Except.ok
              (db.logs.filter (fun l => l.userId == uid && l.habitId == hid),
                db)
      else
        Except.ok (db.logs.filter (fun l => l.userId == uid), db)

/-! ### Shared lemmas about the store lookups -/

/-- The owner-scoped habit lookup returns `none` when no row matches both
the id and the owner. -/
theorem getHabitForUser_eq_none (db : DB) (hid uid : String)
    (h : ∀ x ∈ db.habits, ¬(x.id = hid ∧ x.userId = uid)) :
    getHabitForUser db hid uid = none := by
  unfold getHabitForUser
  have hnil : db.habits.filter (fun x => x.id == hid && x.userId == uid) = [] := by
    rw [List.filter_eq_nil_iff]
    intro x hx
    simpa [Bool.and_eq_true, beq_iff_eq] using h x hx
  rw [hnil]
  rfl

/-- A habit returned by the owner-scoped lookup is a stored row matching
both the id and the owner. -/
theorem getHabitForUser_mem (db : DB) (hid uid : String) (h : Habit)
    (he : getHabitForUser db hid uid = some h) :
    h ∈ db.habits ∧ h.id = hid ∧ h.userId = uid := by
  unfold getHabitForUser at he
  have hmem : h ∈ db.habits.filter (fun x => x.id == hid && x.userId == uid) := by
    cases hl : db.habits.filter (fun x => x.id == hid && x.userId == uid) with
    | nil => rw [hl] at he; simp at he
    | cons a t => rw [hl] at he; simp at he; simp [he]
  rw [List.mem_filter] at hmem
  refine ⟨hmem.1, ?_, ?_⟩
  · have := hmem.2
    simp [Bool.and_eq_true, beq_iff_eq] at this
    exact this.1
  · have := hmem.2
    simp [Bool.and_eq_true, beq_iff_eq] at this
    exact this.2

/-- A log returned by the owner-scoped lookup is a stored row matching both
the id and the owner. -/
theorem findLogForUser_mem (db : DB) (lid uid : String) (l : HabitLog)
    (he : findLogForUser db lid uid = some l) :
    l ∈ db.logs ∧ l.id = lid ∧ l.userId = uid := by
  unfold findLogForUser at he
  have hmem : l ∈ db.logs.filter (fun x => x.id == lid && x.userId == uid) := by
    cases hl : db.logs.filter (fun x => x.id == lid && x.userId == uid) with
    | nil => rw [hl] at he; simp at he
    | cons a t => rw [hl] at he; simp at he; simp [he]
  rw [List.mem_filter] at hmem
  have := hmem.2
  simp [Bool.and_eq_true, beq_iff_eq] at this
  exact ⟨hmem.1, this.1, this.2⟩

/-- `List.Forall₂` between a list and its image under a pointwise map. -/
theorem forall_two_map_self {α : Type} (R : α → α → Prop) (f : α → α)
    (l : List α) (h : ∀ x ∈ l, R x (f x)) : List.Forall₂ R l (l.map f) := by
  induction l with
  | nil => exact List.Forall₂.nil
  | cons a t ih =>
      exact List.Forall₂.cons (h a (List.mem_cons_self a t))
        (ih fun x hx => h x (List.mem_cons_of_mem a hx))

/-! ### C1 -/

/-- Fixture for C1: a store holding one habit owned by user `bob`. -/
def c1db : DB :=
  { habits :=
      [{ id := "h1", userId := "bob", name := "walk", description := none,
         category := none, frequency := none, targetPerPeriod := none,
         impactPerUnit := none, impactUnit := none, isActive := true,
         createdAt := 0, updatedAt := 0 }],
    logs := [] }

/-- Fixture for C1: a schema-valid `updateHabit` payload naming `h1`. -/
def c1ui : UpdateHabitInput :=
  { id := "h1", name := some "run", description := none, category := none,
    frequency := none, targetPerPeriod := none, impactPerUnit := none,
    impactUnit := none }

/-- Fixture for C1: a schema-valid `upsertHabitLog` payload naming `h1`. -/
def c1li : UpsertHabitLogInput :=
  { id := none, habitId := "h1", logDate := none, quantity := none,
    notes := none }

/-- C1: every operation invoked by caller A against a habit id that exists in
the store but whose every row is owned by a different user B fails with
NOT_FOUND.  (Stored ids come from `crypto.randomUUID()`, hence the id is
nonempty.)  An `Except.error` result carries no payload and no successor
store, so none of B's data is returned and B's records are unchanged. -/
theorem c1_cross_user_not_found
    (db : DB) (A B habitId : String) (hAB : A ≠ B) (hne : habitId ≠ "")
    (_hex : ∃ h ∈ db.habits, h.id = habitId)
    (hown : ∀ h ∈ db.habits, h.id = habitId → h.userId = B)
    (ui : UpdateHabitInput) (huid : ui.id = habitId)
    (huiv : validUpdateHabit ui = true)
    (li : UpsertHabitLogInput) (hlid : li.habitId = habitId)
    (hliv : validUpsertHabitLog li = true)
    (now : Nat) (newId : String) :
    updateHabit (some A) ui now db = Except.error ActionError.notFound ∧
    archiveHabit (some A) habitId now db = Except.error ActionError.notFound ∧
    upsertHabitLog (some A) li newId now db
      = Except.error ActionError.notFound ∧
    listHabitLogs (some A) (some habitId) db
      = Except.error ActionError.notFound := by
  have hnone : getHabitForUser db habitId A = none := by
    apply getHabitForUser_eq_none
    intro x hx hcon
    exact hAB ((hcon.2 ▸ hown x hx hcon.1 : A = B))
  refine ⟨?_, ?_, ?_, ?_⟩
  · simp [updateHabit, huiv, requireUser, huid, hnone]
  · simp [archiveHabit, requireUser, hnone]
  · simp [upsertHabitLog, hliv, requireUser, hlid, hnone]
  · simp [listHabitLogs, requireUser, jsTruthy, hne, hnone]

/-- Concrete instance of C1: `alice` attacks `bob`'s habit `h1`. -/
theorem c1_cross_user_not_found_witness :
    updateHabit (some "alice") c1ui 3 c1db = Except.error ActionError.notFound ∧
    archiveHabit (some "alice") "h1" 3 c1db
      = Except.error ActionError.notFound ∧
    upsertHabitLog (some "alice") c1li "L1" 3 c1db
      = Except.error ActionError.notFound ∧
    listHabitLogs (some "alice") (some "h1") c1db
      = Except.error ActionError.notFound :=
  c1_cross_user_not_found c1db "alice" "bob" "h1" (by decide) (by decide)
    (by decide) (by decide) c1ui (by decide) (by decide) c1li (by decide)
    (by decide) 3 "L1"

/-! ### C2 -/

/-- C2: `upsertHabitLog` checks on every call — before branching between the
create and update paths — that the supplied `habitId` (which on the update
path is the new `habitId` the log will be rewritten to) names a habit owned
by the caller: when the owner-scoped lookup fails the call returns NOT_FOUND
(and, errors carrying no successor store, nothing was written), and any
successful call found a habit row owned by the caller under that id. -/
theorem c2_upsert_requires_owned_habit
    (db : DB) (uid : String) (i : UpsertHabitLogInput) (newId : String)
    (now : Nat) (hv : validUpsertHabitLog i = true) :
    (getHabitForUser db i.habitId uid = none →
      upsertHabitLog (some uid) i newId now db
        = Except.error ActionError.notFound) ∧
    (∀ r, upsertHabitLog (some uid) i newId now db = Except.ok r →
      ∃ h, getHabitForUser db i.habitId uid = some h ∧ h ∈ db.habits ∧
        h.id = i.habitId ∧ h.userId = uid) := by
  constructor
  · intro hn
    simp [upsertHabitLog, hv, requireUser, hn]
  · intro r hr
    cases hh : getHabitForUser db i.habitId uid with
    | none => simp [upsertHabitLog, hv, requireUser, hh] at hr
    | some h =>
        have hm := getHabitForUser_mem db i.habitId uid h hh
        exact ⟨h, rfl, hm.1, hm.2.1, hm.2.2⟩

/-- Concrete instance of C2: an update-path payload whose (new) `habitId` is
not owned by the caller fails with NOT_FOUND against the empty store. -/
theorem c2_upsert_requires_owned_habit_witness :
    (getHabitForUser { habits := [], logs := [] } "h9" "u" = none →
      upsertHabitLog (some "u")
        { id := some "L1", habitId := "h9", logDate := none, quantity := none,
          notes := none } "L2" 0 { habits := [], logs := [] }
        = Except.error ActionError.notFound) ∧
    (∀ r, upsertHabitLog (some "u")
        { id := some "L1", habitId := "h9", logDate := none, quantity := none,
          notes := none } "L2" 0 { habits := [], logs := [] } = Except.ok r →
      ∃ h, getHabitForUser { habits := [], logs := [] } "h9" "u" = some h ∧
        h ∈ ({ habits := [], logs := [] } : DB).habits ∧
        h.id = "h9" ∧ h.userId = "u") :=
  c2_upsert_requires_owned_habit { habits := [], logs := [] } "u"
    { id := some "L1", habitId := "h9", logDate := none, quantity := none,
      notes := none } "L2" 0 (by decide)

/-! ### C3 -/

/-- C3 (amended): with no caller identity every action fails before any
store access — the result does not depend on the store at all — and the
failure is UNAUTHORIZED whenever the input passes its schema validation.
(When the input fails validation, the schema error precedes the handler and
the call fails with the input-validation error instead; see the
counterexample.) -/
theorem c3_unauthorized_before_store
    (db db2 : DB) (now : Nat) (newId : String) (ci : HabitFieldsInput)
    (ui : UpdateHabitInput) (aid : String) (inc : Option Bool)
    (li : UpsertHabitLogInput) (qh : Option String)
    (hci : validHabitFields ci = true) (hui : validUpdateHabit ui = true)
    (hli : validUpsertHabitLog li = true) :
    createHabit none ci newId now db = Except.error ActionError.unauthorized ∧
    updateHabit none ui now db = Except.error ActionError.unauthorized ∧
    archiveHabit none aid now db = Except.error ActionError.unauthorized ∧
    listMyHabits none inc db = Except.error ActionError.unauthorized ∧
    upsertHabitLog none li newId now db
      = Except.error ActionError.unauthorized ∧
    listHabitLogs none qh db = Except.error ActionError.unauthorized ∧
    createHabit none ci newId now db = createHabit none ci newId now db2 ∧
    updateHabit none ui now db = updateHabit none ui now db2 ∧
    archiveHabit none aid now db = archiveHabit none aid now db2 ∧
    listMyHabits none inc db = listMyHabits none inc db2 ∧
    upsertHabitLog none li newId now db
      = upsertHabitLog none li newId now db2 ∧
    listHabitLogs none qh db = listHabitLogs none qh db2 := by
  refine ⟨?_, ?_, ?_, ?_, ?_, ?_, ?_, ?_, ?_, ?_, ?_, ?_⟩ <;>
    simp [createHabit, updateHabit, archiveHabit, listMyHabits,
      upsertHabitLog, listHabitLogs, requireUser, hci, hui, hli]

/-- C3 counterexample: `createHabit` with an invalid payload (empty `name`)
and no caller identity fails with the input-validation error, not with
UNAUTHORIZED — the schema runs before the authentication check, so the
claim's "fails with UNAUTHORIZED ... independent of input validity" does not
hold for invalid inputs. -/
theorem c3_counterexample :
    createHabit none
      { name := "", description := none, category := none, frequency := none,
        targetPerPeriod := none, impactPerUnit := none, impactUnit := none }
      "h1" 0 { habits := [], logs := [] }
      = Except.error ActionError.badRequest ∧
    ActionError.badRequest ≠ ActionError.unauthorized :=
  ⟨rfl, by decide⟩

/-- Concrete instance of the amended C3 at valid payloads. -/
theorem c3_unauthorized_before_store_witness :
    createHabit none
      { name := "walk", description := none, category := none,
        frequency := none, targetPerPeriod := none, impactPerUnit := none,
        impactUnit := none } "h1" 0 c1db
      = Except.error ActionError.unauthorized ∧
    updateHabit none c1ui 0 c1db = Except.error ActionError.unauthorized ∧
    archiveHabit none "h1" 0 c1db = Except.error ActionError.unauthorized ∧
    listMyHabits none (some true) c1db
      = Except.error ActionError.unauthorized ∧
    upsertHabitLog none c1li "L1" 0 c1db
      = Except.error ActionError.unauthorized ∧
    listHabitLogs none (some "h1") c1db
      = Except.error ActionError.unauthorized ∧
    createHabit none
      { name := "walk", description := none, category := none,
        frequency := none, targetPerPeriod := none, impactPerUnit := none,
        impactUnit := none } "h1" 0 c1db
      = createHabit none
          { name := "walk", description := none, category := none,
            frequency := none, targetPerPeriod := none, impactPerUnit := none,
            impactUnit := none } "h1" 0 { habits := [], logs := [] } ∧
    updateHabit none c1ui 0 c1db
      = updateHabit none c1ui 0 { habits := [], logs := [] } ∧
    archiveHabit none "h1" 0 c1db
      = archiveHabit none "h1" 0 { habits := [], logs := [] } ∧
    listMyHabits none (some true) c1db
      = listMyHabits none (some true) { habits := [], logs := [] } ∧
    upsertHabitLog none c1li "L1" 0 c1db
      = upsertHabitLog none c1li "L1" 0 { habits := [], logs := [] } ∧
    listHabitLogs none (some "h1") c1db
      = listHabitLogs none (some "h1") { habits := [], logs := [] } :=
  c3_unauthorized_before_store c1db { habits := [], logs := [] } 0 "h1"
    { name := "walk", description := none, category := none,
      frequency := none, targetPerPeriod := none, impactPerUnit := none,
      impactUnit := none } c1ui "h1" (some true) c1li (some "h1")
    (by decide) (by decide) (by decide)

/-! ### C5 -/

/-- C5: an `updateHabit` payload providing `id` and none of the seven
updatable fields is rejected by the `.refine` validation with the input
error, for every caller context and every store — in particular the result
does not depend on the store or on whether the habit exists. -/
theorem c5_update_rejects_empty_payload
    (ctx : Option String) (db db2 : DB) (now now2 : Nat)
    (i : UpdateHabitInput)
    (h1 : i.name = none) (h2 : i.description = none) (h3 : i.category = none)
    (h4 : i.frequency = none) (h5 : i.targetPerPeriod = none)
    (h6 : i.impactPerUnit = none) (h7 : i.impactUnit = none) :
    updateHabit ctx i now db = Except.error ActionError.badRequest ∧
    updateHabit ctx i now db = updateHabit ctx i now2 db2 := by
  have hv : validUpdateHabit i = false := by
    simp [validUpdateHabit, h1, h2, h3, h4, h5, h6, h7]
  constructor <;> simp [updateHabit, hv]

/-- Concrete instance of C5: `{id := "h1"}` alone is rejected even though
`h1` exists and the caller owns it. -/
theorem c5_update_rejects_empty_payload_witness :
    updateHabit (some "bob")
      { id := "h1", name := none, description := none, category := none,
        frequency := none, targetPerPeriod := none, impactPerUnit := none,
        impactUnit := none } 3 c1db = Except.error ActionError.badRequest ∧
    updateHabit (some "bob")
      { id := "h1", name := none, description := none, category := none,
        frequency := none, targetPerPeriod := none, impactPerUnit := none,
        impactUnit := none } 3 c1db
      = updateHabit (some "bob")
          { id := "h1", name := none, description := none, category := none,
            frequency := none, targetPerPeriod := none, impactPerUnit := none,
            impactUnit := none } 9 { habits := [], logs := [] } :=
  c5_update_rejects_empty_payload (some "bob") c1db
    { habits := [], logs := [] } 3 9
    { id := "h1", name := none, description := none, category := none,
      frequency := none, targetPerPeriod := none, impactPerUnit := none,
      impactUnit := none } rfl rfl rfl rfl rfl rfl rfl

/-! ### C4 -/

/-- C4 counterexample: the branch tests JS truthiness, not presence.  A
payload whose `id` is present but equal to the empty string takes the create
path and returns `mode := created`, where the claim demands the update path
(`updated` or NOT_FOUND). -/
theorem c4_counterexample :
    (some "" : Option String).isSome = true ∧
    upsertHabitLog (some "bob")
      { id := some "", habitId := "h1", logDate := none, quantity := none,
        notes := none } "L9" 7 c1db
      = Except.ok (("L9", LogMode.created),
          { habits := c1db.habits,
            logs := [{ id := "L9", habitId := "h1", userId := "bob",
                       logDate := 7, quantity := none, notes := none,
                       createdAt := 7 }] }) :=
  ⟨rfl, rfl⟩

/-- C4 (amended): `upsertHabitLog` branches solely on the truthiness of the
log `id` field — absent or empty string selects the create path, which
appends a fresh log under the supplied generated id and returns
`mode := created`; present and nonempty selects the update path, which
returns `mode := updated` when a log with that id owned by the caller
exists and NOT_FOUND otherwise.  No other input content affects the
branch. -/
theorem c4_upsert_branches_on_truthy_id
    (db : DB) (uid : String) (i : UpsertHabitLogInput) (newId : String)
    (now : Nat) (hv : validUpsertHabitLog i = true) (h : Habit)
    (hh : getHabitForUser db i.habitId uid = some h) :
    (jsTruthy i.id = false →
      upsertHabitLog (some uid) i newId now db
        = Except.ok ((newId, LogMode.created),
            { db with logs := db.logs ++
                [{ id := newId, habitId := i.habitId, userId := uid,
                   logDate := i.logDate.getD now, quantity := i.quantity,
                   notes := i.notes, createdAt := now }] })) ∧
    (jsTruthy i.id = true →
      (findLogForUser db (i.id.getD "") uid = none →
        upsertHabitLog (some uid) i newId now db
          = Except.error ActionError.notFound) ∧
      (∀ ex, findLogForUser db (i.id.getD "") uid = some ex →
        ∃ db2, upsertHabitLog (some uid) i newId now db
          = Except.ok ((i.id.getD "", LogMode.updated), db2))) := by
  refine ⟨?_, fun ht => ⟨?_, ?_⟩⟩
  · intro hf
    simp [upsertHabitLog, hv, requireUser, hh, hf]
  · intro hl
    simp [upsertHabitLog, hv, requireUser, hh, ht, hl]
  · intro ex hex
    have heq : upsertHabitLog (some uid) i newId now db
        = Except.ok ((i.id.getD "", LogMode.updated),
            { db with logs := db.logs.map (fun l =>
                if l.id == i.id.getD "" && l.userId == uid then
                  applyLogUpdate i ex l
                else l) }) := by
      simp [upsertHabitLog, hv, requireUser, hh, ht, hex]
    exact ⟨_, heq⟩

/-- Concrete instance of the amended C4: an absent `id` creates a fresh
log. -/
theorem c4_upsert_branches_on_truthy_id_witness :
    (jsTruthy c1li.id = false →
      upsertHabitLog (some "bob") c1li "L9" 7 c1db
        = Except.ok (("L9", LogMode.created),
            { c1db with logs := c1db.logs ++
                [{ id := "L9", habitId := c1li.habitId, userId := "bob",
                   logDate := c1li.logDate.getD 7, quantity := c1li.quantity,
                   notes := c1li.notes, createdAt := 7 }] })) ∧
    (jsTruthy c1li.id = true →
      (findLogForUser c1db (c1li.id.getD "") "bob" = none →
        upsertHabitLog (some "bob") c1li "L9" 7 c1db
          = Except.error ActionError.notFound) ∧
      (∀ ex, findLogForUser c1db (c1li.id.getD "") "bob" = some ex →
        ∃ db2, upsertHabitLog (some "bob") c1li "L9" 7 c1db
          = Except.ok ((c1li.id.getD "", LogMode.updated), db2))) :=
  c4_upsert_branches_on_truthy_id c1db "bob" c1li "L9" 7 (by decide)
    { id := "h1", userId := "bob", name := "walk", description := none,
      category := none, frequency := none, targetPerPeriod := none,
      impactPerUnit := none, impactUnit := none, isActive := true,
      createdAt := 0, updatedAt := 0 } (by decide)

/-! ### C8 -/

/-- Fixture for C8: user `u` owns habit `h1` and one log for it. -/
def c8db : DB :=
  { habits :=
      [{ id := "h1", userId := "u", name := "walk", description := none,
         category := none, frequency := none, targetPerPeriod := none,
         impactPerUnit := none, impactUnit := none, isActive := true,
         createdAt := 0, updatedAt := 0 }],
    logs :=
      [{ id := "L1", habitId := "h1", userId := "u", logDate := 1,
         quantity := some 5, notes := some "n", createdAt := 1 }] }

/-- C8 counterexample: `habitId := ""` is present in the input and names no
habit owned by the caller, yet the call does not fail with NOT_FOUND — the
truthiness test treats the empty string as absent and the call returns all
of the caller's logs (whose `habitId` is not `""`). -/
theorem c8_counterexample :
    (some "" : Option String).isSome = true ∧
    getHabitForUser c8db "" "u" = none ∧
    listHabitLogs (some "u") (some "") c8db = Except.ok (c8db.logs, c8db) ∧
    listHabitLogs (some "u") (some "") c8db
      ≠ Except.error ActionError.notFound := by
  have h3 : listHabitLogs (some "u") (some "") c8db
      = Except.ok (c8db.logs, c8db) := rfl
  refine ⟨rfl, rfl, h3, ?_⟩
  rw [h3]
  exact fun hcon => Except.noConfusion hcon

/-- C8 (amended): when the optional `habitId` is truthy (present and
nonempty), `listHabitLogs` fails with NOT_FOUND unless it names a habit
owned by the caller, and otherwise returns exactly the caller's logs whose
`habitId` equals it; when `habitId` is absent or the empty string it
returns exactly all of the caller's logs. -/
theorem c8_list_habit_logs_filter
    (db : DB) (uid : String) (hid : Option String) :
    (jsTruthy hid = true →
      (getHabitForUser db (hid.getD "") uid = none →
        listHabitLogs (some uid) hid db = Except.error ActionError.notFound) ∧
      (∀ h, getHabitForUser db (hid.getD "") uid = some h →
        ∃ items, listHabitLogs (some uid) hid db = Except.ok (items, db) ∧
          ∀ l : HabitLog, l ∈ items ↔
            (l ∈ db.logs ∧ l.userId = uid ∧ l.habitId = hid.getD ""))) ∧
    (jsTruthy hid = false →
      ∃ items, listHabitLogs (some uid) hid db = Except.ok (items, db) ∧
        ∀ l : HabitLog, l ∈ items ↔ (l ∈ db.logs ∧ l.userId = uid)) := by
  refine ⟨fun ht => ⟨?_, ?_⟩, ?_⟩
  · intro hn
    simp [listHabitLogs, requireUser, ht, hn]
  · intro h hsome
    refine ⟨db.logs.filter
      (fun l => l.userId == uid && l.habitId == hid.getD ""), ?_, ?_⟩
    · simp [listHabitLogs, requireUser, ht, hsome]
    · intro l
      simp [List.mem_filter, Bool.and_eq_true, beq_iff_eq, and_assoc]
  · intro hf
    refine ⟨db.logs.filter (fun l => l.userId == uid), ?_, ?_⟩
    · simp [listHabitLogs, requireUser, hf]
    · intro l
      simp [List.mem_filter, beq_iff_eq]

/-- Concrete instance of the amended C8 on the fixture store. -/
theorem c8_list_habit_logs_filter_witness :
    (jsTruthy (some "h1") = true →
      (getHabitForUser c8db ((some "h1").getD "") "u" = none →
        listHabitLogs (some "u") (some "h1") c8db
          = Except.error ActionError.notFound) ∧
      (∀ h, getHabitForUser c8db ((some "h1").getD "") "u" = some h →
        ∃ items, listHabitLogs (some "u") (some "h1") c8db
            = Except.ok (items, c8db) ∧
          ∀ l : HabitLog, l ∈ items ↔
            (l ∈ c8db.logs ∧ l.userId = "u" ∧
              l.habitId = (some "h1").getD ""))) ∧
    (jsTruthy (some "h1") = false →
      ∃ items, listHabitLogs (some "u") (some "h1") c8db
          = Except.ok (items, c8db) ∧
        ∀ l : HabitLog, l ∈ items ↔ (l ∈ c8db.logs ∧ l.userId = "u")) :=
  c8_list_habit_logs_filter c8db "u" (some "h1")

/-! ### C6 -/

/-- The frame relation of `updateHabit` between a stored habit row and its
successor: rows not matching the id and owner are untouched; on the matching
rows exactly the provided fields plus `updatedAt` change, and `id`,
`userId`, `isActive`, `createdAt` and every omitted field keep their prior
values. -/
def habitFrameRel (i : UpdateHabitInput) (uid : String) (now : Nat)
    (h h2 : Habit) : Prop :=
  (¬(h.id = i.id ∧ h.userId = uid) → h2 = h) ∧
  ((h.id = i.id ∧ h.userId = uid) →
    h2.id = h.id ∧ h2.userId = h.userId ∧ h2.isActive = h.isActive ∧
    h2.createdAt = h.createdAt ∧ h2.updatedAt = now ∧
    (i.name = none → h2.name = h.name) ∧
    (∀ v, i.name = some v → h2.name = v) ∧
    (i.description = none → h2.description = h.description) ∧
    (∀ v, i.description = some v → h2.description = some v) ∧
    (i.category = none → h2.category = h.category) ∧
    (∀ v, i.category = some v → h2.category = some v) ∧
    (i.frequency = none → h2.frequency = h.frequency) ∧
    (∀ v, i.frequency = some v → h2.frequency = some v) ∧
    (i.targetPerPeriod = none → h2.targetPerPeriod = h.targetPerPeriod) ∧
    (∀ v, i.targetPerPeriod = some v → h2.targetPerPeriod = some v) ∧
    (i.impactPerUnit = none → h2.impactPerUnit = h.impactPerUnit) ∧
    (∀ v, i.impactPerUnit = some v → h2.impactPerUnit = some v) ∧
    (i.impactUnit = none → h2.impactUnit = h.impactUnit) ∧
    (∀ v, i.impactUnit = some v → h2.impactUnit = some v))

/-- C6: a successful `updateHabit` changes exactly the provided fields plus
`updatedAt` on the caller's matching habit rows, leaves every other row and
every omitted field (including `id`, `userId`, `isActive`, `createdAt`)
unchanged, and does not touch the logs. -/
theorem c6_update_habit_frame
    (db : DB) (uid : String) (i : UpdateHabitInput) (now : Nat)
    (hv : validUpdateHabit i = true) (h0 : Habit)
    (hfound : getHabitForUser db i.id uid = some h0) :
    ∃ db2, updateHabit (some uid) i now db = Except.ok (i.id, db2) ∧
      db2.logs = db.logs ∧
      List.Forall₂ (habitFrameRel i uid now) db.habits db2.habits := by
  have heq : updateHabit (some uid) i now db
      = Except.ok (i.id, { db with habits := db.habits.map (fun h =>
          if h.id == i.id && h.userId == uid then applyHabitUpdate i now h
          else h) }) := by
    simp [updateHabit, hv, requireUser, hfound]
  refine ⟨_, heq, rfl, ?_⟩
  apply forall_two_map_self
  intro h _
  unfold habitFrameRel
  by_cases hc : (h.id == i.id && h.userId == uid) = true
  · rw [if_pos hc]
    have hc2 : h.id = i.id ∧ h.userId = uid := by
      simpa [Bool.and_eq_true, beq_iff_eq] using hc
    refine ⟨fun hcon => absurd hc2 hcon, fun _ => ?_⟩
    refine ⟨rfl, rfl, rfl, rfl, rfl, ?_, ?_, ?_, ?_, ?_, ?_, ?_, ?_, ?_, ?_,
      ?_, ?_, ?_, ?_⟩ <;>
      first
      | (intro hopt; simp [applyHabitUpdate, setCol, hopt])
      | (intro v hopt; simp [applyHabitUpdate, setCol, hopt])
  · rw [if_neg hc]
    have hc2 : ¬(h.id = i.id ∧ h.userId = uid) := by
      intro hcon
      exact hc (by simp [Bool.and_eq_true, beq_iff_eq, hcon.1, hcon.2])
    exact ⟨fun _ => rfl, fun hcon => absurd hcon hc2⟩

/-- Concrete instance of C6: updating only `category` on an owned habit. -/
theorem c6_update_habit_frame_witness :
    ∃ db2, updateHabit (some "u")
        { id := "h1", name := none, description := none,
          category := some "water", frequency := none, targetPerPeriod := none,
          impactPerUnit := none, impactUnit := none } 9 c8db
        = Except.ok ("h1", db2) ∧
      db2.logs = c8db.logs ∧
      List.Forall₂
        (habitFrameRel
          { id := "h1", name := none, description := none,
            category := some "water", frequency := none,
            targetPerPeriod := none, impactPerUnit := none,
            impactUnit := none } "u" 9)
        c8db.habits db2.habits :=
  c6_update_habit_frame c8db "u"
    { id := "h1", name := none, description := none,
      category := some "water", frequency := none, targetPerPeriod := none,
      impactPerUnit := none, impactUnit := none } 9 (by decide)
    { id := "h1", userId := "u", name := "walk", description := none,
      category := none, frequency := none, targetPerPeriod := none,
      impactPerUnit := none, impactUnit := none, isActive := true,
      createdAt := 0, updatedAt := 0 } (by decide)

/-! ### C7 -/

/-- C7 counterexample: updating log `L1` (stored `quantity := some 5`,
`notes := some "n"`) while omitting `quantity` and `notes` leaves both
stored values unchanged — drizzle drops `undefined` SET entries — where the
claim says omitted `quantity`/`notes` are overwritten with the (absent)
input values, i.e. cleared. -/
theorem c7_counterexample :
    upsertHabitLog (some "u")
      { id := some "L1", habitId := "h1", logDate := none, quantity := none,
        notes := none } "L2" 9 c8db
      = Except.ok (("L1", LogMode.updated),
          { habits := c8db.habits,
            logs := [{ id := "L1", habitId := "h1", userId := "u",
                       logDate := 1, quantity := some 5, notes := some "n",
                       createdAt := 1 }] }) ∧
    some (5 : Int) ≠ none :=
  ⟨rfl, by decide⟩

/-- The field semantics of `upsertHabitLog`'s update path between a stored
log row and its successor: rows not matching the id and owner are
untouched; on matching rows `habitId` is overwritten with the input,
`logDate` is overwritten with the input falling back to the fetched
existing row's value, `quantity` and `notes` are overwritten only when the
input provides them (omission leaves them unchanged), and `id`, `userId`,
`createdAt` keep their prior values. -/
def logUpdateRel (i : UpsertHabitLogInput) (ex : HabitLog) (uid : String)
    (l l2 : HabitLog) : Prop :=
  (¬(l.id = i.id.getD "" ∧ l.userId = uid) → l2 = l) ∧
  ((l.id = i.id.getD "" ∧ l.userId = uid) →
    l2.habitId = i.habitId ∧
    (i.logDate = none → l2.logDate = ex.logDate) ∧
    (∀ d, i.logDate = some d → l2.logDate = d) ∧
    (i.quantity = none → l2.quantity = l.quantity) ∧
    (∀ q, i.quantity = some q → l2.quantity = some q) ∧
    (i.notes = none → l2.notes = l.notes) ∧
    (∀ s, i.notes = some s → l2.notes = some s) ∧
    l2.id = l.id ∧ l2.userId = l.userId ∧ l2.createdAt = l.createdAt)

/-- C7 (amended): on `upsertHabitLog`'s update path the matching stored rows
satisfy `logUpdateRel`: `habitId` always overwritten, `logDate` overwritten
with fallback to the fetched row's value, `quantity` and `notes`
overwritten only when supplied — omitting them leaves the stored values
unchanged rather than clearing them. -/
theorem c7_update_path_set_semantics
    (db : DB) (uid : String) (i : UpsertHabitLogInput) (newId : String)
    (now : Nat) (hv : validUpsertHabitLog i = true) (h : Habit)
    (hh : getHabitForUser db i.habitId uid = some h)
    (ht : jsTruthy i.id = true) (ex : HabitLog)
    (hex : findLogForUser db (i.id.getD "") uid = some ex) :
    ∃ db2, upsertHabitLog (some uid) i newId now db
        = Except.ok ((i.id.getD "", LogMode.updated), db2) ∧
      db2.habits = db.habits ∧
      List.Forall₂ (logUpdateRel i ex uid) db.logs db2.logs := by
  have heq : upsertHabitLog (some uid) i newId now db
      = Except.ok ((i.id.getD "", LogMode.updated),
          { db with logs := db.logs.map (fun l =>
              if l.id == i.id.getD "" && l.userId == uid then
                applyLogUpdate i ex l
              else l) }) := by
    simp [upsertHabitLog, hv, requireUser, hh, ht, hex]
  refine ⟨_, heq, rfl, ?_⟩
  apply forall_two_map_self
  intro l _
  unfold logUpdateRel
  by_cases hc : (l.id == i.id.getD "" && l.userId == uid) = true
  · rw [if_pos hc]
    have hc2 : l.id = i.id.getD "" ∧ l.userId = uid := by
      simpa [Bool.and_eq_true, beq_iff_eq] using hc
    refine ⟨fun hcon => absurd hc2 hcon, fun _ => ?_⟩
    refine ⟨rfl, ?_, ?_, ?_, ?_, ?_, ?_, rfl, rfl, rfl⟩ <;>
      first
      | (intro hopt; simp [applyLogUpdate, setCol, hopt])
      | (intro v hopt; simp [applyLogUpdate, setCol, hopt])
  · rw [if_neg hc]
    have hc2 : ¬(l.id = i.id.getD "" ∧ l.userId = uid) := by
      intro hcon
      exact hc (by simp [Bool.and_eq_true, beq_iff_eq, hcon.1, hcon.2])
    exact ⟨fun _ => rfl, fun hcon => absurd hcon hc2⟩

/-- Concrete instance of the amended C7: updating `L1` with a new quantity
and omitted notes. -/
theorem c7_update_path_set_semantics_witness :
    ∃ db2, upsertHabitLog (some "u")
        { id := some "L1", habitId := "h1", logDate := none,
          quantity := some 2, notes := none } "L2" 9 c8db
        = Except.ok ((((some "L1" : Option String)).getD "",
            LogMode.updated), db2) ∧
      db2.habits = c8db.habits ∧
      List.Forall₂
        (logUpdateRel
          { id := some "L1", habitId := "h1", logDate := none,
            quantity := some 2, notes := none }
          { id := "L1", habitId := "h1", userId := "u", logDate := 1,
            quantity := some 5, notes := some "n", createdAt := 1 } "u")
        c8db.logs db2.logs :=
  c7_update_path_set_semantics c8db "u"
    { id := some "L1", habitId := "h1", logDate := none, quantity := some 2,
      notes := none } "L2" 9 (by decide)
    { id := "h1", userId := "u", name := "walk", description := none,
      category := none, frequency := none, targetPerPeriod := none,
      impactPerUnit := none, impactUnit := none, isActive := true,
      createdAt := 0, updatedAt := 0 } (by decide) (by decide)
    { id := "L1", habitId := "h1", userId := "u", logDate := 1,
      quantity := some 5, notes := some "n", createdAt := 1 } (by decide)

/-! ### C9 -/

/-- Evaluation of the default listing: the caller's active habits. -/
theorem listMyHabits_default (db : DB) (uid : String) :
    listMyHabits (some uid) (some false) db
      = Except.ok
          (db.habits.filter (fun h => h.userId == uid && h.isActive), db) :=
  rfl

/-- Evaluation of the explicit listing: all the caller's habits. -/
theorem listMyHabits_inactive (db : DB) (uid : String) :
    listMyHabits (some uid) (some true) db
      = Except.ok (db.habits.filter (fun h => h.userId == uid), db) :=
  rfl

/-- C9: after a successful `archiveHabit` on a habit owned by the caller,
the default listing (`includeInactive := false`) never contains that habit
id, the explicit listing (`includeInactive := true`) contains it with
`isActive = false` (and every listed row under that id is inactive), and
the logs are untouched. -/
theorem c9_archive_then_list
    (db : DB) (uid habitId : String) (now : Nat) (h0 : Habit)
    (hfound : getHabitForUser db habitId uid = some h0) :
    ∃ db2, archiveHabit (some uid) habitId now db = Except.ok (habitId, db2) ∧
      db2.logs = db.logs ∧
      (∃ items, listMyHabits (some uid) (some false) db2
          = Except.ok (items, db2) ∧ ∀ x ∈ items, x.id ≠ habitId) ∧
      (∃ items, listMyHabits (some uid) (some true) db2
          = Except.ok (items, db2) ∧
        (∃ x ∈ items, x.id = habitId ∧ x.isActive = false) ∧
        (∀ x ∈ items, x.id = habitId → x.isActive = false)) := by
  have hm := getHabitForUser_mem db habitId uid h0 hfound
  have heq : archiveHabit (some uid) habitId now db
      = Except.ok (habitId, { db with habits := db.habits.map (fun h =>
          if h.id == habitId && h.userId == uid then
            { h with isActive := false, updatedAt := now }
          else h) }) := by
    simp [archiveHabit, requireUser, hfound]
  refine ⟨_, heq, rfl, ?_, ?_⟩
  · refine ⟨_, listMyHabits_default _ _, ?_⟩
    intro x hx
    rw [List.mem_filter] at hx
    obtain ⟨hxm, hxp⟩ := hx
    simp only [Bool.and_eq_true, beq_iff_eq] at hxp
    rw [List.mem_map] at hxm
    obtain ⟨y, hym, hyx⟩ := hxm
    by_cases hyc : (y.id == habitId && y.userId == uid) = true
    · rw [if_pos hyc] at hyx
      intro _
      rw [← hyx] at hxp
      exact Bool.false_ne_true hxp.2
    · rw [if_neg hyc] at hyx
      intro hxid
      apply hyc
      rw [← hyx] at hxid hxp
      simp [Bool.and_eq_true, beq_iff_eq, hxid, hxp.1]
  · refine ⟨_, listMyHabits_inactive _ _, ?_, ?_⟩
    · refine ⟨{ h0 with isActive := false, updatedAt := now }, ?_, hm.2.1, rfl⟩
      rw [List.mem_filter]
      constructor
      · have : (fun h : Habit =>
            if h.id == habitId && h.userId == uid then
              { h with isActive := false, updatedAt := now }
            else h) h0 = { h0 with isActive := false, updatedAt := now } := by
          show (if h0.id == habitId && h0.userId == uid then
              { h0 with isActive := false, updatedAt := now }
            else h0) = { h0 with isActive := false, updatedAt := now }
          rw [if_pos (by simp [Bool.and_eq_true, beq_iff_eq, hm.2.1, hm.2.2])]
        rw [← this]
        exact List.mem_map_of_mem _ hm.1
      · simp [beq_iff_eq, hm.2.2]
    · intro x hx hxid
      rw [List.mem_filter] at hx
      obtain ⟨hxm, hxp⟩ := hx
      simp only [beq_iff_eq] at hxp
      rw [List.mem_map] at hxm
      obtain ⟨y, hym, hyx⟩ := hxm
      by_cases hyc : (y.id == habitId && y.userId == uid) = true
      · rw [if_pos hyc] at hyx
        rw [← hyx]
      · rw [if_neg hyc] at hyx
        exfalso
        apply hyc
        rw [← hyx] at hxid hxp
        simp [Bool.and_eq_true, beq_iff_eq, hxid, hxp]

/-- Concrete instance of C9: archiving habit `h1` of user `u`. -/
theorem c9_archive_then_list_witness :
    ∃ db2, archiveHabit (some "u") "h1" 9 c8db = Except.ok ("h1", db2) ∧
      db2.logs = c8db.logs ∧
      (∃ items, listMyHabits (some "u") (some false) db2
          = Except.ok (items, db2) ∧ ∀ x ∈ items, x.id ≠ "h1") ∧
      (∃ items, listMyHabits (some "u") (some true) db2
          = Except.ok (items, db2) ∧
        (∃ x ∈ items, x.id = "h1" ∧ x.isActive = false) ∧
        (∀ x ∈ items, x.id = "h1" → x.isActive = false)) :=
  c9_archive_then_list c8db "u" "h1" 9
    { id := "h1", userId := "u", name := "walk", description := none,
      category := none, frequency := none, targetPerPeriod := none,
      impactPerUnit := none, impactUnit := none, isActive := true,
      createdAt := 0, updatedAt := 0 } (by decide)

/-! ### C10 -/

/-- The author-identity frame between a stored log row and its successor:
`id`, `userId` and `createdAt` are preserved. -/
def logAuthorRel (l l2 : HabitLog) : Prop :=
  l2.id = l.id ∧ l2.userId = l.userId ∧ l2.createdAt = l.createdAt

/-- C10: `upsertHabitLog`'s update path never changes any stored log's
`id`, `userId` or `createdAt` (even while overwriting `habitId`), and its
create path appends a log whose `userId` is the caller's identity — so a
log's `userId` always records the caller that created it. -/
theorem c10_log_owner_immutable
    (db : DB) (uid : String) (i : UpsertHabitLogInput) (newId : String)
    (now : Nat) (hv : validUpsertHabitLog i = true) (h : Habit)
    (hh : getHabitForUser db i.habitId uid = some h) :
    (jsTruthy i.id = true →
      ∀ db2 sid, upsertHabitLog (some uid) i newId now db
          = Except.ok ((sid, LogMode.updated), db2) →
        List.Forall₂ logAuthorRel db.logs db2.logs) ∧
    (jsTruthy i.id = false →
      ∃ lnew, upsertHabitLog (some uid) i newId now db
          = Except.ok ((newId, LogMode.created),
              { db with logs := db.logs ++ [lnew] }) ∧
        lnew.id = newId ∧ lnew.userId = uid ∧ lnew.createdAt = now) := by
  constructor
  · intro ht db2 sid hok
    cases hex : findLogForUser db (i.id.getD "") uid with
    | none =>
        rw [show upsertHabitLog (some uid) i newId now db
            = Except.error ActionError.notFound from by
          simp [upsertHabitLog, hv, requireUser, hh, ht, hex]] at hok
        exact Except.noConfusion hok
    | some ex =>
        have heq : upsertHabitLog (some uid) i newId now db
            = Except.ok ((i.id.getD "", LogMode.updated),
                { db with logs := db.logs.map (fun l =>
                    if l.id == i.id.getD "" && l.userId == uid then
                      applyLogUpdate i ex l
                    else l) }) := by
          simp [upsertHabitLog, hv, requireUser, hh, ht, hex]
        rw [heq] at hok
        have hdb2 : db2 = { db with logs := db.logs.map (fun l =>
            if l.id == i.id.getD "" && l.userId == uid then
              applyLogUpdate i ex l
            else l) } := by
          have := (Except.ok.injEq _ _).mp hok
          exact (Prod.mk.injEq _ _ _ _).mp this |>.2 |>.symm
        rw [hdb2]
        apply forall_two_map_self
        intro l _
        by_cases hc : (l.id == i.id.getD "" && l.userId == uid) = true
        · rw [if_pos hc]
          exact ⟨rfl, rfl, rfl⟩
        · rw [if_neg hc]
          exact ⟨rfl, rfl, rfl⟩
  · intro hf
    have heq2 : upsertHabitLog (some uid) i newId now db
        = Except.ok ((newId, LogMode.created),
            { db with logs := db.logs ++
                [{ id := newId, habitId := i.habitId, userId := uid,
                   logDate := i.logDate.getD now, quantity := i.quantity,
                   notes := i.notes, createdAt := now }] }) := by
      simp [upsertHabitLog, hv, requireUser, hh, hf]
    exact ⟨_, heq2, rfl, rfl, rfl⟩

/-- Concrete instance of C10 on the update path: rewriting `L1` keeps its
`id`, `userId` and `createdAt`. -/
theorem c10_log_owner_immutable_witness :
    (jsTruthy (some "L1") = true →
      ∀ db2 sid, upsertHabitLog (some "u")
          { id := some "L1", habitId := "h1", logDate := some 4,
            quantity := some 2, notes := none } "L2" 9 c8db
          = Except.ok ((sid, LogMode.updated), db2) →
        List.Forall₂ logAuthorRel c8db.logs db2.logs) ∧
    (jsTruthy (some "L1") = false →
      ∃ lnew, upsertHabitLog (some "u")
          { id := some "L1", habitId := "h1", logDate := some 4,
            quantity := some 2, notes := none } "L2" 9 c8db
          = Except.ok (("L2", LogMode.created),
              { c8db with logs := c8db.logs ++ [lnew] }) ∧
        lnew.id = "L2" ∧ lnew.userId = "u" ∧ lnew.createdAt = 9) :=
  c10_log_owner_immutable c8db "u"
    { id := some "L1", habitId := "h1", logDate := some 4, quantity := some 2,
      notes := none } "L2" 9 (by decide)
    { id := "h1", userId := "u", name := "walk", description := none,
      category := none, frequency := none, targetPerPeriod := none,
      impactPerUnit := none, impactUnit := none, isActive := true,
      createdAt := 0, updatedAt := 0 } (by decide)
